import Mathlib

/-!
Verification development for the nala coaching app.

Shallow embedding of the progression state machine, the retrieval query, the
message-persistence flow and the frontend progress helpers, with theorems
checking the natural-language specification against them.

Timestamps are modelled as integers (milliseconds since the epoch, as in the
JavaScript `Date.getTime()` and in the SQL TIMESTAMP columns); session/stage
numbers are integers as in the database schema and in JavaScript numbers.
-/

/-- One `session_progress` row as the frontend receives it from
GET `/session/progress/{user_id}` (interface `SessionProgress` in
`frontend/src/screens/ChatOverviewScreen.tsx`): a stage number plus the two
nullable timestamps. -/
structure SessionProgress where
  session_number : ℤ
  completed_at : Option ℤ
  unlocked_at : Option ℤ
deriving Repr, DecidableEq

/-- Milliseconds per day, the divisor `1000 * 60 * 60 * 24` used by the
countdown computation. -/
def msPerDay : ℤ := 1000 * 60 * 60 * 24

/-- JavaScript `Math.ceil(a / b)` for integer `a` and positive integer `b`:
the least integer at or above the exact quotient, i.e. `-((-a) / b)` with
floor division. -/
def ceilDiv (a b : ℤ) : ℤ := -((-a).ediv b)

/-- `isSessionUnlocked` exactly as implemented in
`frontend/src/screens/ChatOverviewScreen.tsx` (lines 67 to 75): stage 1 is
always unlocked; otherwise the code looks up the record of the PREVIOUS
session (`session_number - 1`), returns false when that record is missing or
has a null `unlocked_at`, and otherwise compares the clock with that
predecessor timestamp. -/
def isSessionUnlocked (progress : List SessionProgress) (now : ℤ)
    (sessionNumber : ℤ) : Bool :=
  if sessionNumber = 1 then true
  else
    match progress.find? (fun p => p.session_number == sessionNumber - 1) with
    | none => false
    | some record =>
      match record.unlocked_at with
      | none => false
      | some unlockDate => decide (unlockDate ≤ now)

/-- `isSessionComplete` as implemented in
`frontend/src/screens/ChatOverviewScreen.tsx`: a record with the matching
session number exists and its `completed_at` is non-null. -/
def isSessionComplete (progress : List SessionProgress)
    (sessionNumber : ℤ) : Bool :=
  match progress.find? (fun p => p.session_number == sessionNumber) with
  | none => false
  | some record => record.completed_at.isSome

/-- The unlock check as the specification (and the algorithm documented in
`docs/SESSION_MANAGEMENT.md`, `isSessionUnlocked`) states it: stage 1 always
true; otherwise consult the stage's OWN record - if its `unlocked_at` is set,
compare it with the clock, and otherwise fall back to whether the previous
stage is completed. Kept separate from `isSessionUnlocked` so the two can be
compared. -/
def isUnlocked_spec (progress : List SessionProgress) (now : ℤ)
    (k : ℤ) : Bool :=
  if k = 1 then true
  else
    match progress.find? (fun p => p.session_number == k) with
    | some record =>
      match record.unlocked_at with
      | some t => decide (t ≤ now)
      | none => isSessionComplete progress (k - 1)
    | none => isSessionComplete progress (k - 1)

/-- `getUnlockCountdown` exactly as documented for
`frontend/src/screens/ChatOverviewScreen.tsx` in `docs/SESSION_MANAGEMENT.md`
(lines 274 to 289): it looks up the PREVIOUS session's record, answers
"Locked" when that record or its `unlocked_at` is absent, and otherwise
derives the day countdown from the predecessor timestamp with
`Math.ceil((unlockTime - now) / 86400000)`. -/
def getUnlockCountdown (progress : List SessionProgress) (now : ℤ)
    (sessionNumber : ℤ) : Option String :=
  if sessionNumber = 1 then none
  else
    match progress.find? (fun p => p.session_number == sessionNumber - 1) with
    | none => some "Locked"
    | some prevSession =>
      match prevSession.unlocked_at with
      | none => some "Locked"
      | some unlockTime =>
        let diffDays := ceilDiv (unlockTime - now) msPerDay
        if 1 < diffDays then some (s!"Unlocks in {diffDays} days")
        else if diffDays = 1 then some "Unlocks tomorrow"
        else if diffDays = 0 then some "Unlocks today"
        else some "Unlocked"

/-- The countdown as the specification states it (the contract of spec section
4.5, also recorded as the intended fix in `docs/SESSION_MANAGEMENT.md`): read
the CURRENT stage's own `unlocked_at`, fall back to "Locked" (locked, no
estimate) when it is absent, and report nothing once the unlock time has
passed. Kept separate from `getUnlockCountdown` so the two can be compared. -/
def getUnlockCountdown_spec (progress : List SessionProgress) (now : ℤ)
    (sessionNumber : ℤ) : Option String :=
  if sessionNumber = 1 then none
  else
    match progress.find? (fun p => p.session_number == sessionNumber) with
    | none => some "Locked"
    | some current =>
      match current.unlocked_at with
      | none => some "Locked"
      | some unlockTime =>
        let diffDays := ceilDiv (unlockTime - now) msPerDay
        if 1 < diffDays then some (s!"Unlocks in {diffDays} days")
        else if diffDays = 1 then some "Unlocks tomorrow"
        else if diffDays = 0 then some "Unlocks today"
        else none

/-- Outcome of the `fetch` performed by `ApiService.getUserProgress`: a JSON
body with an OK status, a non-OK HTTP status (the code then throws
`HTTP ${status}` and catches it), or a rejected fetch (network error). -/
inductive FetchOutcome where
  | ok (body : List SessionProgress)
  | httpError (status : ℕ)
  | networkError
deriving Repr, DecidableEq

/-- `ApiService.getUserProgress` from `frontend/src/services/ApiService.ts`
(lines 125 to 137): returns the parsed body on success and the empty array
from its catch block on any failure, whether the thrown `HTTP ${status}`
error or a network error. -/
def getUserProgress : FetchOutcome → List SessionProgress
  | .ok body => body
  | .httpError _ => []
  | .networkError => []

/-- The session card colour from `ChatOverviewScreen.tsx`: gray `#E5E7EB` when
locked, overridden to green `#4A8B6F` when completed, else pink `#BF5F83` when
unlocked. -/
def cardColor (progress : List SessionProgress) (now : ℤ)
    (sessionNumber : ℤ) : String :=
  if isSessionComplete progress sessionNumber then "#4A8B6F"
  else if isSessionUnlocked progress now sessionNumber then "#BF5F83"
  else "#E5E7EB"

/-- One row of the backend `session_progress` table
(`backend/models/session_progress.py`, schema in
`docs/SESSION_MANAGEMENT.md`): keyed by `(user_id, session_number)` with the
two nullable timestamps. -/
structure SessionRow where
  user_id : String
  session_number : ℤ
  completed_at : Option ℤ
  unlocked_at : Option ℤ
deriving Repr, DecidableEq

/-- The `filter_by(user_id=..., session_number=...)` predicate of the session
route queries. -/
def rowKey (u : String) (n : ℤ) (r : SessionRow) : Bool :=
  r.user_id == u && r.session_number == n

/-- `db.query(SessionProgress).filter_by(user_id=u, session_number=n).first()`. -/
def findRow (db : List SessionRow) (u : String) (n : ℤ) : Option SessionRow :=
  db.find? (rowKey u n)

/-- In-place mutation of the matching row(s), as committing a change to the
ORM object keyed by `(u, n)` does. -/
def updateRow (db : List SessionRow) (u : String) (n : ℤ)
    (f : SessionRow → SessionRow) : List SessionRow :=
  db.map (fun r => if rowKey u n r then f r else r)

/-- `SessionProgress.mark_complete(unlock_delay_days)` from
`backend/models/session_progress.py` as quoted in
`docs/SESSION_MANAGEMENT.md` (lines 177 to 189): unconditionally set
`completed_at` to the current time and return the updated row together with
`completed_at + timedelta(days=unlock_delay_days)`. -/
def mark_complete (p : SessionRow) (now : ℤ)
    (unlock_delay_days : ℤ) : SessionRow × ℤ :=
  let completed := now
  ({ p with completed_at := some completed },
   completed + unlock_delay_days * msPerDay)

/-- The next-session part of the POST `/session/complete` route
(`docs/SESSION_MANAGEMENT.md` lines 117 to 134): only for `next <= 4`, create
the next row with `unlocked_at = unlock_time` when it does not exist, set
`unlocked_at` when the existing row has none, and leave an already set
`unlocked_at` untouched. -/
def unlock_next (db : List SessionRow) (u : String) (next : ℤ)
    (unlock_time : ℤ) : List SessionRow :=
  if next ≤ 4 then
    match findRow db u next with
    | none => db ++ [⟨u, next, none, some unlock_time⟩]
    | some np =>
      if np.unlocked_at.isNone then
        updateRow db u next (fun r => { r with unlocked_at := some unlock_time })
      else db
  else db

/-- `mark_session_complete` - the POST `/session/complete` route from
`backend/routes/session.py` as quoted in `docs/SESSION_MANAGEMENT.md` (lines
99 to 136): get-or-create the row for `(user_id, session_number)`, call
`mark_complete(unlock_delay_days=7)` on it, then handle the next session and
commit. There is no validation of `session_number` anywhere in the route. -/
def mark_session_complete (db : List SessionRow) (user_id : String)
    (session_number now : ℤ) : List SessionRow :=
  let found := findRow db user_id session_number
  let progress := found.getD ⟨user_id, session_number, none, none⟩
  let db₁ := if found.isSome then db else db ++ [progress]
  let r := mark_complete progress now 7
  let db₂ := updateRow db₁ user_id session_number (fun _ => r.1)
  unlock_next db₂ user_id (session_number + 1) r.2

/-- One message row of the `messages` table. -/
structure Turn where
  role : String
  content : String
deriving Repr, DecidableEq

/-- One row of the `conversations` table, restricted to the message list and
the cached `message_count`, the fields the persistence claims are about. -/
structure Conversation where
  messages : List Turn
  message_count : ℕ
deriving Repr, DecidableEq

/-- `DatabaseService.create_message` as documented in
`docs/../PERSISTENCE_EXPLAINED` (backend doc, lines 125 to 140): the message
INSERT and the `message_count` increment are staged together and committed in
one `session.commit()`. -/
def create_message (c : Conversation) (role content : String) : Conversation :=
  { messages := c.messages ++ [⟨role, content⟩],
    message_count := c.message_count + 1 }

/-- The POST `/chat/message` route body (backend persistence doc, steps 3 to
5) acting on the conversation state. `gen` is the outcome of the AI
generation step (`none` when generation raised), and the two flags say
whether each of the two `create_message` commits succeeded; a failed commit
is rolled back, leaving only the state already committed before it. Returns
the persisted conversation state and whether the request succeeded. The user
turn is committed only after generation succeeds, and the assistant turn is a
second, separate commit. -/
def send_message (c : Conversation) (userMsg : String) (gen : Option String)
    (userCommitOk assistantCommitOk : Bool) : Conversation × Bool :=
  match gen with
  | none => (c, false)
  | some reply =>
    if userCommitOk then
      let c₁ := create_message c "user" userMsg
      if assistantCommitOk then (create_message c₁ "assistant" reply, true)
      else (c₁, false)
    else (c, false)

/-- One row of the read-only `coaching_conversations` table used for
retrieval (`AI-backend/query.py`). -/
structure CoachingExample where
  participant_response : String
  coach_response : String
  context_category : String
  goal_type : String
deriving Repr, DecidableEq

/-- A stored row paired with the pgvector cosine distance
`participant_embedding <=> query_embedding` between its embedding and the
query embedding. The SQL treats the `<=>` operator as opaque, so the
embedding carries the distance it yields for the query at hand. -/
abbrev ScoredRow := CoachingExample × ℚ

/-- The similarity the query computes for a row:
`1 - (participant_embedding <=> query_embedding)`. -/
def similarity (r : ScoredRow) : ℚ := 1 - r.2

/-- The `ORDER BY participant_embedding <=> query_embedding` comparison:
ascending cosine distance. -/
def distLE (a b : ScoredRow) : Prop := a.2 ≤ b.2

instance : DecidableRel distLE :=
  fun a b => inferInstanceAs (Decidable (a.2 ≤ b.2))

instance : IsTotal ScoredRow distLE := ⟨fun a b => le_total a.2 b.2⟩

instance : IsTrans ScoredRow distLE := ⟨fun _ _ _ h h2 => le_trans h h2⟩

/-- `VectorSearch.search(query, limit, min_similarity)` from
`AI-backend/query.py`: the SQL keeps the rows with
`1 - (participant_embedding <=> q) >= min_similarity`, orders them by
ascending distance to the query (descending similarity) and returns at most
`LIMIT limit` rows. -/
def VectorSearch.search (table : List ScoredRow) (limit : ℕ)
    (min_similarity : ℚ) : List ScoredRow :=
  (List.insertionSort distLE
    (table.filter (fun r => decide (min_similarity ≤ 1 - r.2)))).take limit

/-- Modelled from the spec: one provider call of the CompletionGateway can
succeed, raise a transient error (timeout, 5xx-equivalent) or raise a
non-transient error (invalid credentials, malformed request). The provider
call implementation (`AI-backend/rag_dynamic.py`) is not part of the source
tree, only documentation excerpts of it are. -/
inductive ProviderOutcome where
  | success (text : String)
  | transient (cause : String)
  | fatal (cause : String)
deriving Repr, DecidableEq

/-- Result of `CompletionGateway.generate`: a reply with the provider that
answered, or a `GenerationFailed` error carrying the provider name and the
cause. -/
inductive GenResult where
  | ok (text provider : String)
  | generationFailed (provider cause : String)
deriving Repr, DecidableEq

/-- Modelled from the spec (section 4.3 failure policy): call the provider;
on a transient error retry exactly once after backoff; on a non-transient
error do not retry; surface any final failure as `GenerationFailed` with the
provider name and cause. `attempts k` is the outcome of the k-th provider
call; the second component of the result counts the provider calls made. -/
def CompletionGateway.generate (provider : String)
    (attempts : ℕ → ProviderOutcome) : GenResult × ℕ :=
  match attempts 0 with
  | .success t => (.ok t provider, 1)
  | .fatal c => (.generationFailed provider c, 1)
  | .transient _ =>
    match attempts 1 with
    | .success t => (.ok t provider, 2)
    | .transient c => (.generationFailed provider c, 2)
    | .fatal c => (.generationFailed provider c, 2)

/-- A provider behaviour whose first call raises a transient timeout and
whose second call succeeds. -/
def transientThenSuccess : ℕ → ProviderOutcome :=
  fun k => if k = 0 then .transient "timeout" else .success "hello"

/-- A provider behaviour that always raises a non-transient
invalid-credentials error. -/
def alwaysFatal : ℕ → ProviderOutcome := fun _ => .fatal "invalid credentials"

/-- Claim C7: on the code of `ChatOverviewScreen.tsx`, `isSessionUnlocked 1`
is true for every progress set (in particular the empty one of a brand-new
user), and with an empty progress set every stage above 1 is locked. -/
theorem isSessionUnlocked_stage1_empty (progress : List SessionProgress)
    (now k : ℤ) (hk : 1 < k) :
    isSessionUnlocked progress now 1 = true ∧
    isSessionUnlocked [] now k = false := by
  have h1 : k ≠ 1 := by omega
  exact ⟨by simp [isSessionUnlocked], by simp [isSessionUnlocked, h1, List.find?]⟩

/-- Witness for C7 at the concrete empty progress set, clock 0, stage 2. -/
theorem isSessionUnlocked_stage1_empty_witness :
    isSessionUnlocked [] 0 1 = true ∧ isSessionUnlocked [] 0 2 = false :=
  isSessionUnlocked_stage1_empty [] 0 2 (by decide)

/-- Claim C1: the unlock check of `ChatOverviewScreen.tsx` does NOT behave as
the claim states. With a progress set whose only record is stage 2 itself
with `unlocked_at` in the past, the claim demands true but the code returns
false (it only ever consults the predecessor record). With a progress set
whose only record is stage 1 unlocked-but-not-completed, stage 2 has no
explicit unlock record and stage 1 is not completed, so the claim demands
false, but the code returns true from the predecessor timestamp. -/
theorem isSessionUnlocked_diverges_from_spec :
    (isSessionUnlocked [⟨2, none, some 0⟩] 5 2 = false ∧
      isUnlocked_spec [⟨2, none, some 0⟩] 5 2 = true) ∧
    (isSessionUnlocked [⟨1, none, some 0⟩] 5 2 = true ∧
      isUnlocked_spec [⟨1, none, some 0⟩] 5 2 = false ∧
      isSessionComplete [⟨1, none, some 0⟩] 1 = false) := by decide

/-- Claim C6: the countdown display documented for `ChatOverviewScreen.tsx`
reads the PREDECESSOR stage's `unlocked_at`, not the stage's own. With stage
1 unlocked at time 0 and stage 2 due to unlock 10 days later, the code shows
"Unlocks today" from stage 1's timestamp while the specified derivation shows
"Unlocks in 10 days" from stage 2's own timestamp; and when stage 2 has no
record at all the code still shows "Unlocks today" instead of the specified
locked-no-estimate fallback. -/
theorem getUnlockCountdown_reads_predecessor :
    (getUnlockCountdown [⟨1, none, some 0⟩, ⟨2, none, some (10 * msPerDay)⟩] 0 2
      = some "Unlocks today" ∧
     getUnlockCountdown_spec [⟨1, none, some 0⟩, ⟨2, none, some (10 * msPerDay)⟩] 0 2
      = some "Unlocks in 10 days") ∧
    (getUnlockCountdown [⟨1, none, some 0⟩] 0 2 = some "Unlocks today" ∧
     getUnlockCountdown_spec [⟨1, none, some 0⟩] 0 2 = some "Locked") := by decide

/-- Claim C10: `getUserProgress` maps every failed fetch (non-OK HTTP status
or network error) to the empty list, which is exactly what a brand-new user
receives, and on the empty list the overview renders every stage above 1
with the locked gray card while stage 1 stays unlocked. -/
theorem getUserProgress_failure_locked (status : ℕ) (now k : ℤ)
    (hk : 1 < k) :
    getUserProgress (.httpError status) = [] ∧
    getUserProgress .networkError = [] ∧
    getUserProgress (.httpError status) = getUserProgress (.ok []) ∧
    cardColor (getUserProgress (.httpError status)) now k = "#E5E7EB" ∧
    cardColor (getUserProgress .networkError) now k = "#E5E7EB" ∧
    isSessionUnlocked (getUserProgress (.httpError status)) now 1 = true := by
  have h1 : k ≠ 1 := by omega
  refine ⟨rfl, rfl, rfl, ?_, ?_, ?_⟩
  · simp [cardColor, getUserProgress, isSessionComplete, isSessionUnlocked, h1,
      List.find?]
  · simp [cardColor, getUserProgress, isSessionComplete, isSessionUnlocked, h1,
      List.find?]
  · simp [getUserProgress, isSessionUnlocked]

/-- Witness for C10 at HTTP status 500, clock 0, stage 2. -/
theorem getUserProgress_failure_locked_witness :
    getUserProgress (.httpError 500) = [] ∧
    getUserProgress .networkError = [] ∧
    getUserProgress (.httpError 500) = getUserProgress (.ok []) ∧
    cardColor (getUserProgress (.httpError 500)) 0 2 = "#E5E7EB" ∧
    cardColor (getUserProgress .networkError) 0 2 = "#E5E7EB" ∧
    isSessionUnlocked (getUserProgress (.httpError 500)) 0 1 = true :=
  getUserProgress_failure_locked 500 0 2 (by decide)

/-- Claim C5: when the AI generation step fails, `send_message` has performed
no database write yet (generation runs before either message insert), so the
message list, the cached count and every other field of the conversation are
unchanged and the request fails. -/
theorem send_message_generation_failure_unchanged (c : Conversation)
    (userMsg : String) (uOk aOk : Bool) :
    (send_message c userMsg none uOk aOk).1.messages = c.messages ∧
    (send_message c userMsg none uOk aOk).1.message_count = c.message_count ∧
    (send_message c userMsg none uOk aOk).2 = false :=
  ⟨rfl, rfl, rfl⟩

/-- Claim C3, counterexample: the execution in which generation succeeds, the
user-turn commit succeeds and the assistant-turn commit fails leaves exactly
the orphaned user turn persisted - neither nothing nor both turns. -/
theorem send_message_orphaned_user_turn :
    (send_message ⟨[], 0⟩ "hi" (some "reply") true false).1.messages
      = [⟨"user", "hi"⟩] ∧
    ¬((send_message ⟨[], 0⟩ "hi" (some "reply") true false).1.messages
        = ([] : List Turn) ∨
      (send_message ⟨[], 0⟩ "hi" (some "reply") true false).1.messages
        = [⟨"user", "hi"⟩, ⟨"assistant", "reply"⟩]) := by decide

/-- Claim C3, amended: each turn insert and its count increment form one
commit (the cached count always equals the number of stored turns), and a
successful request appends both turns; but the two turns are two separate
commits, so a failed assistant commit leaves the user turn persisted alone,
while a failed user commit leaves the conversation untouched. -/
theorem send_message_two_commit_units (c : Conversation)
    (userMsg reply : String) (uOk aOk : Bool)
    (h : c.message_count = c.messages.length) :
    (send_message c userMsg (some reply) uOk aOk).1.message_count
      = (send_message c userMsg (some reply) uOk aOk).1.messages.length ∧
    (uOk = true → aOk = true →
      (send_message c userMsg (some reply) uOk aOk).1.messages
        = c.messages ++ [⟨"user", userMsg⟩, ⟨"assistant", reply⟩]) ∧
    (uOk = true → aOk = false →
      (send_message c userMsg (some reply) uOk aOk).1.messages
        = c.messages ++ [⟨"user", userMsg⟩]) ∧
    (uOk = false → (send_message c userMsg (some reply) uOk aOk).1 = c) := by
  cases uOk <;> cases aOk <;> simp [send_message, create_message, h]

/-- Witness for C3 (amended) at the empty conversation with a failing
assistant commit. -/
theorem send_message_two_commit_units_witness :
    (send_message ⟨[], 0⟩ "hi" (some "reply") true false).1.message_count
      = (send_message ⟨[], 0⟩ "hi" (some "reply") true false).1.messages.length ∧
    (true = true → false = true →
      (send_message ⟨[], 0⟩ "hi" (some "reply") true false).1.messages
        = [] ++ [⟨"user", "hi"⟩, ⟨"assistant", "reply"⟩]) ∧
    (true = true → false = false →
      (send_message ⟨[], 0⟩ "hi" (some "reply") true false).1.messages
        = [] ++ [⟨"user", "hi"⟩]) ∧
    (true = false → (send_message ⟨[], 0⟩ "hi" (some "reply") true false).1 = ⟨[], 0⟩) :=
  send_message_two_commit_units ⟨[], 0⟩ "hi" "reply" true false rfl

/-- Claim C9: under the spec-modelled gateway, a transient first outcome
leads to exactly two provider calls (one retry), and a non-transient first
outcome is never retried and surfaces as `GenerationFailed` carrying the
provider name and the cause. -/
theorem generate_retry_policy (provider : String)
    (attempts : ℕ → ProviderOutcome) (c : String) :
    (attempts 0 = .transient c →
      (CompletionGateway.generate provider attempts).2 = 2) ∧
    (attempts 0 = .fatal c →
      CompletionGateway.generate provider attempts
        = (.generationFailed provider c, 1)) := by
  constructor
  · intro h
    rcases h1 : attempts 1 <;> simp [CompletionGateway.generate, h, h1]
  · intro h
    simp [CompletionGateway.generate, h]

/-- Witness for C9: a timeout-then-success behaviour makes two calls; an
invalid-credentials behaviour fails immediately with provider and cause. -/
theorem generate_retry_policy_witness :
    (CompletionGateway.generate "anthropic" transientThenSuccess).2 = 2 ∧
    CompletionGateway.generate "openai" alwaysFatal
      = (.generationFailed "openai" "invalid credentials", 1) :=
  ⟨(generate_retry_policy "anthropic" transientThenSuccess "timeout").1 rfl,
   (generate_retry_policy "openai" alwaysFatal "invalid credentials").2 rfl⟩

/-- Claim C4: `VectorSearch.search` returns only rows whose similarity
`1 - distance` is at least `min_similarity`, sorted in descending order of
similarity, and at most `limit` of them. -/
theorem search_floor_sorted_bounded (table : List ScoredRow) (limit : ℕ)
    (min_similarity : ℚ) :
    (∀ r ∈ VectorSearch.search table limit min_similarity,
        min_similarity ≤ similarity r) ∧
    List.Sorted (fun a b : ScoredRow => similarity b ≤ similarity a)
      (VectorSearch.search table limit min_similarity) ∧
    (VectorSearch.search table limit min_similarity).length ≤ limit := by
  refine ⟨?_, ?_, ?_⟩
  · intro r hr
    have h1 : r ∈ List.insertionSort distLE
        (table.filter (fun r => decide (min_similarity ≤ 1 - r.2))) :=
      List.take_subset _ _ hr
    have h2 : r ∈ table.filter (fun r => decide (min_similarity ≤ 1 - r.2)) :=
      (List.perm_insertionSort distLE _).mem_iff.mp h1
    have h3 := (List.mem_filter.mp h2).2
    simpa [similarity] using of_decide_eq_true h3
  · have hs : List.Sorted distLE (List.insertionSort distLE
        (table.filter (fun r => decide (min_similarity ≤ 1 - r.2)))) :=
      List.sorted_insertionSort distLE _
    have hs2 : List.Sorted (fun a b : ScoredRow => similarity b ≤ similarity a)
        (List.insertionSort distLE
          (table.filter (fun r => decide (min_similarity ≤ 1 - r.2)))) :=
      hs.imp (fun hab => sub_le_sub_left hab 1)
    exact List.Pairwise.sublist (List.take_sublist _ _) hs2
  · exact List.length_take_le _ _

/-- A row matched by the `(user_id, session_number)` filter has exactly those
key fields. -/
theorem rowKey_eq_true {u : String} {n : ℤ} {r : SessionRow}
    (h : rowKey u n r = true) : r.user_id = u ∧ r.session_number = n := by
  simpa [rowKey, Bool.and_eq_true] using h

/-- A literal row with the key fields `(u, n)` matches the `(u, n)` filter. -/
theorem rowKey_self (u : String) (n : ℤ) (c ua : Option ℤ) :
    rowKey u n ⟨u, n, c, ua⟩ = true := by
  simp [rowKey]

/-- A literal row with session number `n` does not match a filter for a
different session number `m`. -/
theorem rowKey_mk_ne (u : String) (m n : ℤ) (hmn : n ≠ m) (c ua : Option ℤ) :
    rowKey u m ⟨u, n, c, ua⟩ = false := by
  simp [rowKey, hmn]

theorem findRow_nil (u : String) (n : ℤ) : findRow [] u n = none := rfl

theorem findRow_cons (r : SessionRow) (t : List SessionRow) (u : String)
    (n : ℤ) :
    findRow (r :: t) u n = if rowKey u n r then some r else findRow t u n := by
  cases h : rowKey u n r <;> simp [findRow, List.find?, h]

/-- Updating the rows at key `(u, n)` with a key-preserving function maps the
lookup at that key. -/
theorem findRow_updateRow_self (db : List SessionRow) (u : String) (n : ℤ)
    (f : SessionRow → SessionRow)
    (hf : ∀ r, rowKey u n r = true → rowKey u n (f r) = true) :
    findRow (updateRow db u n f) u n = (findRow db u n).map f := by
  induction db with
  | nil => rfl
  | cons r t ih =>
    cases h : rowKey u n r with
    | true => simp [updateRow, findRow_cons, h, hf r h]
    | false => simpa [updateRow, findRow_cons, h] using ih

/-- Updating the rows at key `(u, m)` with a function that never produces a
row at key `(u, n)` leaves the lookup at key `(u, n)` unchanged. -/
theorem findRow_updateRow_ne (db : List SessionRow) (u : String) (m n : ℤ)
    (f : SessionRow → SessionRow) (hmn : m ≠ n)
    (hf : ∀ r, rowKey u m r = true → rowKey u n (f r) = false) :
    findRow (updateRow db u m f) u n = findRow db u n := by
  induction db with
  | nil => rfl
  | cons r t ih =>
    cases h : rowKey u m r with
    | true =>
      have h3 : rowKey u n r = false := by
        rcases rowKey_eq_true h with ⟨hu, hs⟩
        simp [rowKey, hs, hmn]
      simpa [updateRow, findRow_cons, h, hf r h, h3] using ih
    | false =>
      by_cases h4 : rowKey u n r = true
      · simp [updateRow, findRow_cons, h, h4]
      · simp only [Bool.not_eq_true] at h4
        simpa [updateRow, findRow_cons, h, h4] using ih

theorem findRow_append (db l : List SessionRow) (u : String) (n : ℤ) :
    findRow (db ++ l) u n = (findRow db u n).or (findRow l u n) := by
  induction db with
  | nil => simp [findRow_nil]
  | cons r t ih =>
    cases h : rowKey u n r with
    | true => simp [findRow_cons, h]
    | false => simpa [findRow_cons, h] using ih

/-- `unlock_next` never changes the lookup at a session number other than the
one it unlocks. -/
theorem findRow_unlock_next_ne (db : List SessionRow) (u : String)
    (next target unlock_time : ℤ) (hne : next ≠ target) :
    findRow (unlock_next db u next unlock_time) u target
      = findRow db u target := by
  unfold unlock_next
  by_cases h4 : next ≤ 4
  · simp only [if_pos h4]
    cases hnp : findRow db u next with
    | none =>
      rw [findRow_append]
      have h5 : findRow [(⟨u, next, none, some unlock_time⟩ : SessionRow)]
          u target = none := by
        simp [findRow_cons, findRow_nil, rowKey_mk_ne u target next hne]
      simp [h5]
    | some np =>
      by_cases hu : np.unlocked_at.isNone = true
      · simp only [if_pos hu]
        apply findRow_updateRow_ne _ _ _ _ _ hne
        intro r hr
        rcases rowKey_eq_true hr with ⟨h1, h2⟩
        simp [rowKey, h2, hne]
      · simp only [if_neg hu]
  · simp only [if_neg h4]

/-- After `unlock_next` runs for a session number within range, that session
has a row with a non-null `unlocked_at`. -/
theorem findRow_unlock_next_self (db : List SessionRow) (u : String)
    (next unlock_time : ℤ) (h4 : next ≤ 4) :
    ∃ np, findRow (unlock_next db u next unlock_time) u next = some np ∧
      np.unlocked_at.isSome = true := by
  unfold unlock_next
  simp only [if_pos h4]
  cases hnp : findRow db u next with
  | none =>
    refine ⟨⟨u, next, none, some unlock_time⟩, ?_, rfl⟩
    rw [findRow_append, hnp]
    simp [findRow_cons, findRow_nil, rowKey_self]
  | some np =>
    by_cases hu : np.unlocked_at.isNone = true
    · refine ⟨{ np with unlocked_at := some unlock_time }, ?_, rfl⟩
      simp only [if_pos hu]
      rw [findRow_updateRow_self]
      · rw [hnp]; rfl
      · intro r hr
        rcases rowKey_eq_true hr with ⟨h1, h2⟩
        simp [rowKey, h1, h2]
    · simp only [if_neg hu]
      refine ⟨np, hnp, ?_⟩
      cases h : np.unlocked_at with
      | none => simp [h] at hu
      | some _ => simp

/-- After POST `/session/complete`, the requested `(user, session)` pair has
a row whose `completed_at` is the (new) call time, whatever the prior state
and whatever the session number. -/
theorem mark_session_complete_current (db : List SessionRow) (u : String)
    (n t : ℤ) :
    ∃ ua, findRow (mark_session_complete db u n t) u n
      = some ⟨u, n, some t, ua⟩ := by
  unfold mark_session_complete
  cases hf : findRow db u n with
  | none =>
    refine ⟨none, ?_⟩
    simp only [Option.getD_none, Option.isSome_none, Bool.false_eq_true,
      if_false, mark_complete]
    rw [findRow_unlock_next_ne _ _ _ _ _ (by omega : n + 1 ≠ n)]
    rw [findRow_updateRow_self]
    · rw [findRow_append, hf]
      simp [findRow_cons, findRow_nil, rowKey_self]
    · intro r _
      exact rowKey_self u n (some t) none
  | some p =>
    rcases rowKey_eq_true (List.find?_some hf) with ⟨hu, hs⟩
    refine ⟨p.unlocked_at, ?_⟩
    simp only [Option.getD_some, Option.isSome_some, if_true, mark_complete]
    rw [findRow_unlock_next_ne _ _ _ _ _ (by omega : n + 1 ≠ n)]
    rw [findRow_updateRow_self]
    · rw [hf]
      cases p
      simp_all
    · intro r _
      cases p
      simp_all [rowKey]

/-- After POST `/session/complete` for a session whose successor is within
the 4-session program, the successor has a row with a non-null
`unlocked_at`. -/
theorem mark_session_complete_next (db : List SessionRow) (u : String)
    (n t : ℤ) (h4 : n + 1 ≤ 4) :
    ∃ np, findRow (mark_session_complete db u n t) u (n + 1) = some np ∧
      np.unlocked_at.isSome = true := by
  unfold mark_session_complete
  cases hf : findRow db u n with
  | none =>
    simp only [Option.getD_none, Option.isSome_none, Bool.false_eq_true,
      if_false, mark_complete]
    exact findRow_unlock_next_self _ _ _ _ h4
  | some p =>
    simp only [Option.getD_some, Option.isSome_some, if_true, mark_complete]
    exact findRow_unlock_next_self _ _ _ _ h4

/-- Claim C2, counterexample: completing session 1 at time 0 stores
`completed_at = 0`; calling POST `/session/complete` again at time 5 stores
`completed_at = 5`, so the second call does not return the first completion
timestamp and does mutate state. -/
theorem mark_session_complete_not_idempotent :
    (findRow (mark_session_complete [] "u" 1 0) "u" 1).bind
        (fun r => r.completed_at) = some 0 ∧
    (findRow (mark_session_complete (mark_session_complete [] "u" 1 0) "u" 1 5)
        "u" 1).bind (fun r => r.completed_at) = some 5 := by decide

/-- Claim C2, amended: a second POST `/session/complete` for the same
`(user, session)` never changes the next session's `unlocked_at` (in
particular never pushes it later), because the route only sets `unlocked_at`
on a next-session row that has none; but `mark_complete` has no
already-completed check, so the second call overwrites `completed_at` with
its own call time. -/
theorem mark_session_complete_repeat (db : List SessionRow) (u : String)
    (n t₁ t₂ : ℤ) :
    (findRow (mark_session_complete (mark_session_complete db u n t₁) u n t₂)
        u (n + 1)).bind (fun r => r.unlocked_at)
      = (findRow (mark_session_complete db u n t₁) u (n + 1)).bind
          (fun r => r.unlocked_at) ∧
    (findRow (mark_session_complete (mark_session_complete db u n t₁) u n t₂)
        u n).bind (fun r => r.completed_at) = some t₂ := by
  obtain ⟨ua, hq⟩ := mark_session_complete_current db u n t₁
  set db₁ := mark_session_complete db u n t₁ with hdb₁
  have hconst : ∀ r : SessionRow, rowKey u n r = true →
      rowKey u n (⟨u, n, some t₂, ua⟩ : SessionRow) = true :=
    fun r _ => rowKey_self u n (some t₂) ua
  have hconst2 : ∀ r : SessionRow, rowKey u n r = true →
      rowKey u (n + 1) (⟨u, n, some t₂, ua⟩ : SessionRow) = false :=
    fun r _ => rowKey_mk_ne u (n + 1) n (by omega) (some t₂) ua
  have hA : findRow (updateRow db₁ u n (fun _ => ⟨u, n, some t₂, ua⟩))
      u (n + 1) = findRow db₁ u (n + 1) :=
    findRow_updateRow_ne db₁ u n (n + 1) _ (by omega) hconst2
  have hB : findRow (updateRow db₁ u n (fun _ => ⟨u, n, some t₂, ua⟩)) u n
      = some ⟨u, n, some t₂, ua⟩ := by
    rw [findRow_updateRow_self db₁ u n _ hconst, hq]
    rfl
  have hfinal :
      mark_session_complete db₁ u n t₂
        = updateRow db₁ u n (fun _ => ⟨u, n, some t₂, ua⟩) := by
    unfold mark_session_complete
    rw [hq]
    simp only [Option.getD_some, Option.isSome_some, if_true, mark_complete]
    by_cases h4 : n + 1 ≤ 4
    · obtain ⟨np, hnp, hsome⟩ := mark_session_complete_next db u n t₁ h4
      rw [← hdb₁] at hnp
      have hnone : np.unlocked_at.isNone = false := by
        cases h : np.unlocked_at
        · rw [h] at hsome; simp at hsome
        · simp [h]
      unfold unlock_next
      rw [if_pos h4, hA, hnp]
      simp [hnone]
    · unfold unlock_next
      rw [if_neg h4]
  rw [hfinal, hA, hB]
  exact ⟨rfl, rfl⟩

/-- Claim C8, counterexample: a mark-complete request for session 5 (outside
1..4) on an empty store is not rejected - the route creates a progress row
for session 5 and marks it complete. -/
theorem mark_session_complete_accepts_out_of_range :
    mark_session_complete [] "u" 5 0 = [⟨"u", 5, some 0, none⟩] := by decide

/-- Claim C8, amended: the POST `/session/complete` route performs no range
validation. For any stage number above the program length it still creates
(or updates) a row for exactly that stage number - never clamped - and marks
it complete; only the follow-on unlock is range-guarded, so no successor row
is touched. -/
theorem mark_session_complete_no_range_check (db : List SessionRow)
    (u : String) (n t : ℤ) (h : 4 < n) :
    (∃ ua, findRow (mark_session_complete db u n t) u n
        = some ⟨u, n, some t, ua⟩) ∧
    findRow (mark_session_complete db u n t) u (n + 1)
      = findRow db u (n + 1) := by
  refine ⟨mark_session_complete_current db u n t, ?_⟩
  unfold mark_session_complete
  have hconst2 : ∀ (c ua : Option ℤ) (r : SessionRow), rowKey u n r = true →
      rowKey u (n + 1) (⟨u, n, c, ua⟩ : SessionRow) = false :=
    fun c ua r _ => rowKey_mk_ne u (n + 1) n (by omega) c ua
  cases hf : findRow db u n with
  | none =>
    simp only [Option.getD_none, Option.isSome_none, Bool.false_eq_true,
      if_false, mark_complete]
    unfold unlock_next
    rw [if_neg (by omega : ¬ (n + 1 ≤ 4))]
    rw [findRow_updateRow_ne _ u n (n + 1) _ (by omega) (hconst2 _ _)]
    rw [findRow_append]
    simp [findRow_cons, findRow_nil, rowKey_mk_ne u (n + 1) n (by omega)]
  | some p =>
    rcases rowKey_eq_true (List.find?_some hf) with ⟨hu, hs⟩
    simp only [Option.getD_some, Option.isSome_some, if_true, mark_complete]
    unfold unlock_next
    rw [if_neg (by omega : ¬ (n + 1 ≤ 4))]
    apply findRow_updateRow_ne _ u n (n + 1) _ (by omega)
    intro r hr
    cases p
    simp_all [rowKey]

/-- Witness for C8 (amended) at the empty store, user "u", session 5,
time 0. -/
theorem mark_session_complete_no_range_check_witness :
    (∃ ua, findRow (mark_session_complete [] "u" 5 0) "u" 5
        = some ⟨"u", 5, some 0, ua⟩) ∧
    findRow (mark_session_complete [] "u" 5 0) "u" (5 + 1)
      = findRow [] "u" (5 + 1) :=
  mark_session_complete_no_range_check [] "u" 5 0 (by decide)
